import Mathlib

/-!
# Verification of the chat-automation orchestration core

A shallow embedding of the Python sources of the `chat-automation`
repository (session rotation, orchestrator retry protocol, HTTP
prompt provider / result persister, shutdown handling, citation URL
normalization), together with theorems settling the specification
claims against it.

Conventions:
* Python mutable objects become explicit state records; methods become
  functions from state to (return value x state).
* Python exceptions become `Except PyError`.
* External effects (HTTP requests, Playwright page interactions) are
  oracles passed in as explicit arguments; the control flow around
  them is translated from the source.
-/

set_option maxHeartbeats 1000000

/-- Exceptions raised by the Python sources. -/
inductive PyError where
  /-- `ApiProviderError` from src/src/prompt_provider.py -/
  | apiError (msg : String)
  /-- `PersistenceError` from src/src/result_persister.py -/
  | persistError (msg : String)
  /-- Python built-in `TypeError` -/
  | typeError (msg : String)
  /-- Python built-in `KeyError` -/
  | keyError (msg : String)
  /-- Python built-in `RuntimeError` -/
  | runtimeError (msg : String)
deriving Repr, DecidableEq

/-- `SessionType` enum from src/src/models.py. -/
inductive SessionType where
  | chatgpt
deriving Repr, DecidableEq, BEq

/-- `Citation` dataclass from src/src/models.py: url, text, optional number. -/
structure Citation where
  url : String
  text : String
  number : Option Int := none
deriving Repr, DecidableEq

/-- `EvaluationResult` dataclass from src/src/models.py.  The creation
timestamp (`datetime.now()` in the source) is kept as an opaque string. -/
structure EvaluationResult where
  response_text : String
  citations : List Citation := []
  timestamp : String := ""
  success : Bool := true
  error_message : Option String := none
deriving Repr, DecidableEq

/-- `EvaluationResult.has_citations` property: `len(self.citations) > 0`. -/
def EvaluationResult.has_citations (r : EvaluationResult) : Bool :=
  r.citations.length > 0

/-- `Prompt` dataclass exactly as defined in src/src/models.py lines 51-55:
it has only the two fields `id` and `text`. -/
structure Prompt where
  id : String
  text : String
deriving Repr, DecidableEq

/-- Modelled from the spec: the Prompt carrying the opaque correlation
fields (`evaluation_id`, `topic_id`, `claimed_at`) that spec sections 3
and 6 describe and that the repository's own callers and tests require
(`prompt_provider.py` line 219 constructs it, `result_persister.py`
line 182 reads `prompt.evaluation_id`, and the tests build
`Prompt(id=..., text=..., evaluation_id=...)`), but that the `Prompt`
dataclass in src/src/models.py omits. -/
structure PromptFull where
  id : String
  text : String
  evaluation_id : Option Int := none
  topic_id : Option Int := none
  claimed_at : Option String := none
deriving Repr, DecidableEq

/-- The field names accepted by `Prompt.__init__` generated from the
dataclass in src/src/models.py (only `id` and `text`). -/
def promptFieldNames : List String := ["id", "text"]

/-- The keyword arguments passed to `Prompt(...)` at
src/src/prompt_provider.py lines 219-225. -/
def pollPromptKwargNames : List String :=
  ["id", "text", "evaluation_id", "topic_id", "claimed_at"]

/-- Python call semantics for a dataclass constructor: the call succeeds
only if every keyword argument names a declared field; otherwise the
generated `__init__` raises `TypeError`. -/
def dataclassAccepts (fields kwargs : List String) : Bool :=
  kwargs.all (fun k => fields.contains k)

/-- `SessionInfo` dataclass from src/src/models.py. -/
structure SessionInfo where
  session_id : String
  session_type : SessionType
  file_path : String
  usage_count : Nat := 0
  max_usage : Nat := 10
  is_valid : Bool := true
deriving Repr, DecidableEq

/-- `SessionInfo.evaluations_remaining`: `max(0, self.max_usage -
self.usage_count)`; `Nat` subtraction already truncates at zero. -/
def SessionInfo.evaluations_remaining (s : SessionInfo) : Nat :=
  s.max_usage - s.usage_count

/-- `SessionInfo.needs_rotation`: `self.usage_count >= self.max_usage`. -/
def SessionInfo.needs_rotation (s : SessionInfo) : Bool :=
  s.usage_count ≥ s.max_usage

/-- State of a `FileSessionProvider` (src/src/session_provider.py):
`_sessions` dict and `_rotation_order` are combined into one list in
rotation order (the dict keys are the distinct file stems), plus the
configured session type and `_current_index`. -/
structure FileProviderState where
  sessions : List SessionInfo
  session_type : SessionType
  currentIndex : Nat
deriving Repr, DecidableEq

/-- Loop body of `FileSessionProvider.get_session` (lines 150-168).
The fuel argument is the `attempts < len(self._rotation_order)` bound;
the returned state carries the possibly-advanced `_current_index` and
the possibly-reset session. -/
def getSessionGo (st : FileProviderState) : Nat → Option SessionInfo × FileProviderState
  | 0 => (none, st)
  | fuel + 1 =>
    match st.sessions.get? st.currentIndex with
    | none => (none, st)
    | some s =>
      if s.is_valid && !s.needs_rotation then
        (some s, st)
      else if s.is_valid && s.needs_rotation then
        -- "If session needs rotation but is valid, reset it when cycling"
        let s' := { s with usage_count := 0 }
        (some s', { st with sessions := st.sessions.set st.currentIndex s' })
      else
        getSessionGo
          { st with currentIndex := (st.currentIndex + 1) % st.sessions.length } fuel

/-- `FileSessionProvider.get_session` (src/src/session_provider.py lines
145-168): returns `None` for a non-matching session type, otherwise scans
at most `len(rotation_order)` sessions for a valid one. -/
def get_session (st : FileProviderState) (session_type : SessionType) :
    Option SessionInfo × FileProviderState :=
  if session_type != st.session_type then (none, st)
  else getSessionGo st st.sessions.length

/-- `FileSessionProvider.record_evaluation` (src/src/session_provider.py
lines 170-184): raises `KeyError` for an unknown id; otherwise increments
the session's usage counter, computes `remaining`, and advances
`_current_index` (wrapping modulo the pool size) when `remaining == 0`.
It does NOT reset any usage counter. -/
def record_evaluation (st : FileProviderState) (session_id : String) :
    Except PyError (Nat × FileProviderState) :=
  match st.sessions.find? (fun s => s.session_id == session_id) with
  | none => .error (.keyError ("Unknown session: " ++ session_id))
  | some s =>
    let s' := { s with usage_count := s.usage_count + 1 }
    let remaining := s'.evaluations_remaining
    let sessions' := st.sessions.map (fun t => if t.session_id == session_id then s' else t)
    let idx' :=
      if remaining == 0 then (st.currentIndex + 1) % st.sessions.length
      else st.currentIndex
    .ok (remaining, { st with sessions := sessions', currentIndex := idx' })

/-- The remaining count returned by a successful `record_evaluation`. -/
def recRemaining (st : FileProviderState) (session_id : String) : Nat :=
  (((record_evaluation st session_id).toOption).map Prod.fst).getD 0

/-- The provider state after a successful `record_evaluation`. -/
def recState (st : FileProviderState) (session_id : String) : FileProviderState :=
  (((record_evaluation st session_id).toOption).map Prod.snd).getD st

/-- Modelled from the spec: the orchestrator-side Session Pool of spec
section 4.1, whose operations (`recordEvaluation() -> {remaining, rotated}`,
`forceRotate()`, `currentSessionName`) src/src/bot.py calls
(`self._session_provider.force_rotate()` at line 271) but which is not
implemented by any class under src/ — `FileSessionProvider` exposes a
different, session-id-based interface with no `force_rotate`.  State:
fixed pool size, current rotation index, the usage counter for the
current index, and the configured max-per-session. -/
structure SessionPoolState where
  size : Nat
  index : Nat
  usage : Nat
  maxPerSession : Nat
deriving Repr, DecidableEq

/-- Modelled from the spec (section 4.1): `forceRotate()` unconditionally
advances to the next index (wrapping modulo pool size) and resets the
usage counter, regardless of current usage. -/
def SessionPoolState.force_rotate (st : SessionPoolState) : SessionPoolState :=
  { st with index := (st.index + 1) % st.size, usage := 0 }

/-- Outcome of the Playwright page interaction inside the `try` block of
`ChatGPTBot.evaluate` (src/src/chatgpt/bot.py lines 121-143): either the
extracted response text and citations, or a raised exception's message. -/
abbrev PageOutcome := Except String (String × List Citation)

/-- `ChatGPTBot.evaluate` (src/src/chatgpt/bot.py lines 105-151): raises
`RuntimeError` when the bot is not initialized (line 119); otherwise every
exception from the page interaction is caught and converted into a result
with `success=False`, the error message, and an empty citation list.
`Except.error` models a raised (uncaught) Python exception. -/
def ChatGPTBot.evaluate (is_initialized : Bool) (prompt : String)
    (outcome : PageOutcome) : Except PyError EvaluationResult :=
  if is_initialized = false then
    .error (.runtimeError "Bot not initialized. Call initialize() first.")
  else
    match outcome with
    | .ok (response_text, citations) =>
      .ok { response_text := response_text, citations := citations, success := true }
    | .error e =>
      .ok { response_text := "", citations := [], success := false,
            error_message := some e }

/-- Python `str.startswith(p)`, on the character sequence. -/
def pyStartsWith (s p : String) : Bool := p.data.isPrefixOf s.data

/-- Python `str.strip()`: remove leading and trailing whitespace. -/
def pyStrip (s : String) : String :=
  ⟨((s.data.dropWhile Char.isWhitespace).reverse.dropWhile Char.isWhitespace).reverse⟩

/-- Helper for `pySplitOnChar`. -/
def splitOnCharGo (c : Char) : List Char → List Char → List String
  | [], acc => [⟨acc.reverse⟩]
  | x :: xs, acc =>
    if x = c then ⟨acc.reverse⟩ :: splitOnCharGo c xs []
    else splitOnCharGo c xs (x :: acc)

/-- Python `str.split(c)` for a one-character separator; never returns
an empty list. -/
def pySplitOnChar (c : Char) (s : String) : List String := splitOnCharGo c s.data []

/-- Python slicing `s[:n]`. -/
def pyTake (s : String) (n : Nat) : String := ⟨s.data.take n⟩

/-- Python `len(s)` (code points). -/
def pyLen (s : String) : Nat := s.data.length

/-- Python `sep.join(parts)`. -/
def pyJoin (sep : String) : List String → String
  | [] => ""
  | p :: rest => rest.foldl (fun acc x => acc ++ sep ++ x) p

/-- A link element as seen by the citation extractor: its `href`
attribute (`None` when absent), its inner text, and the inner texts of
its nested `div` elements. -/
structure PageLink where
  href : Option String := none
  innerText : String := ""
  divTexts : List String := []
deriving Repr, DecidableEq

/-- Per-link body of `CitationExtractor._parse_links`
(src/src/chatgpt/citation_extractor.py lines 319-340), with `idx` the
1-based `enumerate` counter.  A relative URL beginning with `/` is
rewritten against `https://chatgpt.com`; the display text is the first
line of the link text, truncated to 100 characters. -/
def parseLinksGo : List PageLink → Nat → List Citation
  | [], _ => []
  | l :: rest, idx =>
    let url0 := l.href.getD ""
    let url :=
      if url0 != "" && !pyStartsWith url0 "http" then
        if pyStartsWith url0 "/" then "https://chatgpt.com" ++ url0 else url0
      else url0
    let text := pyStrip l.innerText
    let lines := pySplitOnChar '\n' text
    let name := match lines with
      | [] => pyTake text 100
      | n :: _ => n
    let name := if pyLen name > 100 then pyTake name 97 ++ "..." else name
    { url := url, text := name, number := some idx } :: parseLinksGo rest (idx + 1)

/-- `CitationExtractor._parse_links` (lines 315-342). -/
def parse_links (links : List PageLink) : List Citation :=
  parseLinksGo links 1

/-- Per-link body of `CitationExtractor._extract_from_list_structure`
(src/src/chatgpt/citation_extractor.py lines 278-308): the `href` is
stored as extracted, with NO relative-URL rewriting; the display text is
built from up to three nested div texts (stripped, non-`http`, length
greater than 1), joined with `" - "`. -/
def extractFromListStructureGo : List PageLink → Nat → List Citation
  | [], _ => []
  | l :: rest, idx =>
    let url := l.href.getD ""
    let textParts := l.divTexts.filterMap (fun t =>
      let t := pyStrip t
      if t != "" && !pyStartsWith t "http" && pyLen t > 1 then some t else none)
    let name := textParts.getD 0 ("Source " ++ toString idx)
    let title := textParts.getD 1 ""
    let description := textParts.getD 2 ""
    let parts := [name, title, description].filter (fun s => s != "")
    let textCombined := pyJoin " - " parts
    let textCombined :=
      if textCombined = "" then "Source " ++ toString idx else textCombined
    { url := url, text := textCombined, number := some idx } ::
      extractFromListStructureGo rest (idx + 1)

/-- `CitationExtractor._extract_from_list_structure` (lines 256-313),
applied to the links matched by its selector patterns. -/
def extract_from_list_structure (links : List PageLink) : List Citation :=
  extractFromListStructureGo links 1

/-- A Python signal-handler value as returned by `signal.signal` /
`signal.getsignal`.  `sigDfl` is `signal.SIG_DFL` (integer value 0, hence
falsy); `noneVal` is Python `None` (falsy); `sigIgn` (value 1),
`defaultIntHandler` (the CPython default SIGINT callable) and
`handleSignal` (`ShutdownHandler._handle_signal`) are truthy. -/
inductive PySignalHandler where
  | sigDfl
  | sigIgn
  | defaultIntHandler
  | handleSignal
  | noneVal
deriving Repr, DecidableEq

/-- Python truthiness of a signal-handler value. -/
def PySignalHandler.truthy : PySignalHandler → Bool
  | .sigDfl => false
  | .noneVal => false
  | _ => true

/-- The process's SIGINT and SIGTERM handler table. -/
structure SignalTable where
  sigint : PySignalHandler
  sigterm : PySignalHandler
deriving Repr, DecidableEq

/-- The `_original_sigint_handler` / `_original_sigterm_handler` fields
of `ShutdownHandler`. -/
structure ShutdownSaved where
  origSigint : PySignalHandler
  origSigterm : PySignalHandler
deriving Repr, DecidableEq

/-- `ShutdownHandler.install_signal_handlers`
(src/src/shutdown_handler.py lines 26-36): saves the previous handlers
(as returned by `signal.signal`) and installs `_handle_signal` for both
SIGINT and SIGTERM. -/
def install_signal_handlers (tbl : SignalTable) : ShutdownSaved × SignalTable :=
  ({ origSigint := tbl.sigint, origSigterm := tbl.sigterm },
   { sigint := .handleSignal, sigterm := .handleSignal })

/-- `ShutdownHandler.restore_signal_handlers`
(src/src/shutdown_handler.py lines 59-65): re-installs each saved
handler only when the saved value is truthy
(`if self._original_sigint_handler:`). -/
def restore_signal_handlers (saved : ShutdownSaved) (tbl : SignalTable) : SignalTable :=
  let t1 := if saved.origSigint.truthy then { tbl with sigint := saved.origSigint } else tbl
  if saved.origSigterm.truthy then { t1 with sigterm := saved.origSigterm } else t1

/-- JSON body of a poll response (src/src/prompt_provider.py lines 86-105).
`*_present` distinguishes a missing key from a key present with `null`. -/
structure PollData where
  prompt_id_present : Bool := true
  prompt_id : Option Int := none
  prompt_text_present : Bool := true
  prompt_text : Option String := none
  evaluation_id : Option Int := none
  topic_id : Option Int := none
  claimed_at : Option String := none
deriving Repr, DecidableEq

/-- Outcome of one HTTP POST to the poll endpoint: a timeout, a network
error, or a response with an HTTP status and a body (`none` = body that
fails JSON decoding). -/
inductive PollOutcome where
  | timeout
  | netError
  | response (status : Nat) (body : Option PollData)
deriving Repr, DecidableEq

/-- Retry loop of `HttpApiPromptProvider.poll` (src/src/prompt_provider.py
lines 183-294).  The list holds the outcome of each attempt; its length is
`self._retry_attempts`, and `attempt < self._retry_attempts` (retry
allowed) corresponds to a non-empty tail.  A populated response reaches
the `Prompt(...)` construction at line 219, which passes keyword
arguments (`evaluation_id`, `topic_id`, `claimed_at`) that the
dataclass in src/src/models.py does not declare, so the generated
`__init__` raises `TypeError` — modelled by the `dataclassAccepts`
check. -/
def pollAttempts : List PollOutcome → Except PyError (Option PromptFull)
  | [] => .ok none
  | o :: rest =>
    match o with
    | .timeout =>
      if rest != [] then pollAttempts rest
      else .error (.apiError "API request timed out")
    | .netError =>
      if rest != [] then pollAttempts rest
      else .error (.apiError "Network error")
    | .response status body =>
      if status ≥ 400 then
        -- response.raise_for_status() raises HTTPError
        if status < 500 then .error (.apiError "API rejected request")
        else if rest != [] then pollAttempts rest
        else .error (.apiError "API server error")
      else
        match body with
        | none => .error (.apiError "API returned malformed response")
        | some data =>
          if !data.prompt_id_present || !data.prompt_text_present then
            .error (.apiError "API returned malformed response: missing required fields")
          else
            match data.prompt_id with
            | none => .ok none
            | some pid =>
              if dataclassAccepts promptFieldNames pollPromptKwargNames then
                .ok (some { id := toString pid, text := data.prompt_text.getD "",
                            evaluation_id := data.evaluation_id,
                            topic_id := data.topic_id,
                            claimed_at := data.claimed_at })
              else
                .error (.typeError
                  "Prompt.__init__() got an unexpected keyword argument evaluation_id")

/-- Mutable state of `HttpApiPromptProvider`: the `_closed` flag and the
number of times the underlying `requests.Session` has been closed. -/
structure HttpProviderState where
  closed : Bool := false
  sessionCloses : Nat := 0
deriving Repr, DecidableEq

/-- `HttpApiPromptProvider.poll` (src/src/prompt_provider.py lines
161-294): raises `ApiProviderError` when the provider is closed (lines
174-175); otherwise runs the retry loop. -/
def HttpApiPromptProvider.poll (st : HttpProviderState)
    (outcomes : List PollOutcome) : Except PyError (Option PromptFull) :=
  if st.closed then .error (.apiError "Cannot poll from closed provider")
  else pollAttempts outcomes

/-- `HttpApiPromptProvider.close` (src/src/prompt_provider.py lines
306-315): closes the underlying session and sets `_closed` only on the
first call. -/
def HttpApiPromptProvider.close (st : HttpProviderState) : HttpProviderState :=
  if !st.closed then { closed := true, sessionCloses := st.sessionCloses + 1 }
  else st

/-- Outcome of one HTTP POST to the submit or release endpoint: the
body's JSON validity is all the source inspects. -/
inductive SubmitOutcome where
  | timeout
  | netError
  | response (status : Nat) (validJson : Bool)
deriving Repr, DecidableEq

/-- Retry loop of `HttpApiResultPersister._submit_answer`
(src/src/result_persister.py lines 238-327): retries timeouts, 5xx and
network errors while attempts remain, fails fast on 4xx and on a
malformed JSON body. -/
def submitAttempts : List SubmitOutcome → Except PyError Unit
  | [] => .ok ()
  | o :: rest =>
    match o with
    | .timeout =>
      if rest != [] then submitAttempts rest
      else .error (.persistError "Submit timed out")
    | .netError =>
      if rest != [] then submitAttempts rest
      else .error (.persistError "Submit failed with network error")
    | .response status validJson =>
      if status ≥ 400 then
        if status < 500 then .error (.persistError "API rejected submit request")
        else if rest != [] then submitAttempts rest
        else .error (.persistError "Submit failed with server error")
      else
        if validJson then .ok ()
        else .error (.persistError "API returned malformed response")

/-- `HttpApiResultPersister._release_evaluation` (src/src/result_persister.py
lines 329-392): best-effort — every failure branch (timeout, HTTP error,
network error, malformed body) is caught and logged, never raised. -/
def releaseEvaluation : SubmitOutcome → Except PyError Unit
  | .timeout => .ok ()
  | .netError => .ok ()
  | .response _ _ => .ok ()

/-- Mutable state of `HttpApiResultPersister`. -/
structure PersisterState where
  closed : Bool := false
  sessionCloses : Nat := 0
deriving Repr, DecidableEq

/-- `HttpApiResultPersister.save` (src/src/result_persister.py lines
155-212): raises `PersistenceError` when closed (lines 178-179); skips
silently when the prompt has no `evaluation_id`; submits (with retries)
for `run_number > 0`, releases (best-effort) for `run_number == 0`. -/
def HttpApiResultPersister.save (st : PersisterState) (prompt : PromptFull)
    (result : EvaluationResult) (run_number : Int)
    (submitOutcomes : List SubmitOutcome) (releaseOutcome : SubmitOutcome) :
    Except PyError Unit :=
  if st.closed then .error (.persistError "Cannot save to closed persister")
  else if prompt.evaluation_id = none then .ok ()
  else if run_number > 0 then submitAttempts submitOutcomes
  else releaseEvaluation releaseOutcome

/-- `HttpApiResultPersister.close` (src/src/result_persister.py lines
394-403). -/
def HttpApiResultPersister.close (st : PersisterState) : PersisterState :=
  if !st.closed then { closed := true, sessionCloses := st.sessionCloses + 1 }
  else st

/-- Stubbed collaborators of the Orchestrator, indexed by call number:
whether `get_session` returns a session, whether bot construction plus
its session-loading succeeds, whether `start_new_conversation` succeeds,
the result of each `evaluate` call, and the `rotated` flag reported by
each `record_evaluation` call. -/
structure BotEnv where
  sessionAvail : Nat → Bool
  loadOk : Nat → Bool
  convOk : Nat → Bool
  evalResults : Nat → EvaluationResult
  rotatedFlags : Nat → Bool

/-- Instrumented state of `Orchestrator._process_prompt`: whether a live
bot exists (`self._bot` non-`None` and initialized), counters for each
collaborator call, the number of `force_rotate` calls, and the `save`
calls made (result, run_number). -/
structure OrchState where
  botLive : Bool := false
  getSessionCalls : Nat := 0
  loadCalls : Nat := 0
  convCalls : Nat := 0
  evalCalls : Nat := 0
  recordCalls : Nat := 0
  forceRotates : Nat := 0
  saves : List (EvaluationResult × Nat) := []
deriving Repr, DecidableEq

/-- The initial `_process_prompt` state: no live bot, nothing called. -/
def OrchState.start : OrchState := {}

/-- `Orchestrator._ensure_bot_ready` (src/src/bot.py lines 300-322):
returns immediately when a live bot exists; otherwise pulls the current
session (`False` when none is available), creates a bot and loads the
session into it; on load failure force-rotates the pool and discards the
bot. -/
def ensureBotReady (env : BotEnv) (s : OrchState) : Bool × OrchState :=
  if s.botLive then (true, s)
  else
    let avail := env.sessionAvail s.getSessionCalls
    let s := { s with getSessionCalls := s.getSessionCalls + 1 }
    if !avail then (false, s)
    else
      let ok := env.loadOk s.loadCalls
      let s := { s with loadCalls := s.loadCalls + 1 }
      if ok then (true, { s with botLive := true })
      else (false, { s with forceRotates := s.forceRotates + 1, botLive := false })

/-- The in-budget attempt loop of `Orchestrator._process_prompt`
(src/src/bot.py lines 243-267): `for attempt in range(1,
self._max_attempts + 1)`.  The first argument counts the remaining loop
iterations, the second is the current 1-based `attempt` number.  Returns
the state and whether a result with citations was saved. -/
def processAttempts (env : BotEnv) : Nat → Nat → OrchState → OrchState × Bool
  | 0, _, s => (s, false)
  | n + 1, attempt, s =>
    match ensureBotReady env s with
    | (false, s1) => processAttempts env n (attempt + 1) s1
    | (true, s1) =>
      let s2 := { s1 with convCalls := s1.convCalls + 1 }
      if env.convOk s1.convCalls then
        let r := env.evalResults s2.evalCalls
        let s3 := { s2 with evalCalls := s2.evalCalls + 1 }
        let s4 := { s3 with recordCalls := s3.recordCalls + 1 }
        let s5 := if env.rotatedFlags s3.recordCalls then { s4 with botLive := false } else s4
        if r.has_citations then
          ({ s5 with saves := s5.saves ++ [(r, attempt)] }, true)
        else
          processAttempts env n (attempt + 1) s5
      else
        -- start_new_conversation failed: reset bot, consume the attempt
        processAttempts env n (attempt + 1) { s2 with botLive := false }

/-- The empty result persisted on final failure (src/src/bot.py lines
291-296). -/
def failureResult (maxAttempts : Nat) : EvaluationResult :=
  { response_text := "", citations := [], success := false,
    error_message := some ("No citations found after " ++ toString maxAttempts ++ " attempts") }

/-- The final-failure tail of `_process_prompt` (src/src/bot.py lines
289-298): persist the empty result with `run_number=0` and return
`False`. -/
def finalFailure (maxAttempts : Nat) (s : OrchState) : OrchState × Bool :=
  ({ s with saves := s.saves ++ [(failureResult maxAttempts, 0)] }, false)

/-- The exhausted-budget fallback of `Orchestrator._process_prompt`
(src/src/bot.py lines 269-298): exactly one more attempt after a forced
session rotation (`force_rotate` plus bot reset), saved with run number
1 on success, and otherwise the final empty-result save with run
number 0. -/
def processFallback (env : BotEnv) (maxAttempts : Nat) (s : OrchState) : OrchState × Bool :=
  let sA := { s with forceRotates := s.forceRotates + 1, botLive := false }
  match ensureBotReady env sA with
  | (false, s1) => finalFailure maxAttempts s1
  | (true, s1) =>
    let s2 := { s1 with convCalls := s1.convCalls + 1 }
    if env.convOk s1.convCalls then
      let r := env.evalResults s2.evalCalls
      let s3 := { s2 with evalCalls := s2.evalCalls + 1 }
      let s4 := { s3 with recordCalls := s3.recordCalls + 1 }
      let s5 := if env.rotatedFlags s3.recordCalls then { s4 with botLive := false } else s4
      if r.has_citations then
        ({ s5 with saves := s5.saves ++ [(r, 1)] }, true)
      else
        finalFailure maxAttempts s5
    else
      -- "Failed to start new conversation for final retry": warning only
      finalFailure maxAttempts s2

/-- `Orchestrator._process_prompt` (src/src/bot.py lines 233-298): the
in-budget loop (lines 243-267), then the forced-rotation fallback and
final-failure handling (lines 269-298). -/
def processPrompt (env : BotEnv) (maxAttempts : Nat) : OrchState × Bool :=
  match processAttempts env maxAttempts 1 OrchState.start with
  | (s, true) => (s, true)
  | (s, false) => processFallback env maxAttempts s

/-- A populated poll response, as in the documented response format of
src/src/prompt_provider.py lines 89-95 and the repository's own test
`test_poll_returns_prompt_when_available`. -/
def populatedPollData : PollData :=
  { prompt_id_present := true, prompt_id := some 456,
    prompt_text_present := true, prompt_text := some "What are the best project management tools?",
    evaluation_id := some 123, topic_id := some 1,
    claimed_at := some "2025-12-09T10:30:00Z" }

/-- A freshly constructed two-session pool with `max_usage_per_session=1`
(sessions `a.json`, `b.json`). -/
def cxPool : FileProviderState :=
  { sessions :=
      [{ session_id := "a", session_type := .chatgpt, file_path := "a.json",
         usage_count := 0, max_usage := 1, is_valid := true },
       { session_id := "b", session_type := .chatgpt, file_path := "b.json",
         usage_count := 0, max_usage := 1, is_valid := true }],
    session_type := .chatgpt, currentIndex := 0 }

/-- A freshly constructed two-session pool with `max_usage_per_session=3`. -/
def wPool : FileProviderState :=
  { sessions :=
      [{ session_id := "a", session_type := .chatgpt, file_path := "a.json",
         usage_count := 0, max_usage := 3, is_valid := true },
       { session_id := "b", session_type := .chatgpt, file_path := "b.json",
         usage_count := 0, max_usage := 3, is_valid := true }],
    session_type := .chatgpt, currentIndex := 0 }

/-- Default session used with `List.getD` when projecting pool states. -/
def dfltSession : SessionInfo :=
  { session_id := "", session_type := .chatgpt, file_path := "" }

/-- Default citation used with `List.getD` when projecting extractor output. -/
def dfltCitation : Citation := { url := "", text := "" }

/-- An evaluation result with no citations. -/
def resNoCit : EvaluationResult :=
  { response_text := "answer without sources", citations := [] }

/-- An evaluation result carrying one citation. -/
def resCit : EvaluationResult :=
  { response_text := "answer with sources",
    citations := [{ url := "https://example.com", text := "Example" }] }

/-- Bot stub that never returns citations, with all collaborators
healthy (claim C4's scenario). -/
def envNoCitations : BotEnv :=
  { sessionAvail := fun _ => true, loadOk := fun _ => true, convOk := fun _ => true,
    evalResults := fun _ => resNoCit, rotatedFlags := fun _ => false }

/-- Bot stub that returns citations on the first evaluate call. -/
def envCitFirst : BotEnv :=
  { sessionAvail := fun _ => true, loadOk := fun _ => true, convOk := fun _ => true,
    evalResults := fun _ => resCit, rotatedFlags := fun _ => false }

/-- Bot stub that returns citations only on the third evaluate call
(zero-based index 2). -/
def envCitThird : BotEnv :=
  { sessionAvail := fun _ => true, loadOk := fun _ => true, convOk := fun _ => true,
    evalResults := fun i => if i = 2 then resCit else resNoCit,
    rotatedFlags := fun _ => false }

/-- A links list holding one relative (`/`-prefixed) link, as produced
for example by the `a[target="_blank"]` selector pattern. -/
def relativeLink : PageLink := { href := some "/cite-page", divTexts := ["Example site"] }

/-- A links list holding one absolute link. -/
def absoluteLink : PageLink := { href := some "http://example.com/a", innerText := "Example A" }

/-- Claim C1: the correlation fields (`evaluationId`, `topicId`,
`claimedAt`) of a populated poll response are carried on the resulting
Prompt and echoed back to the Result Sink on every save.  On the code as
written this fails at the very first step: the `Prompt` dataclass in
src/src/models.py declares only `id` and `text`, so the construction at
src/src/prompt_provider.py line 219 raises `TypeError` for every
populated response — evaluated here at the documented example input. -/
theorem C1_poll_populated_response_raises_typeerror :
    HttpApiPromptProvider.poll {} [PollOutcome.response 200 (some populatedPollData)] =
      Except.error (PyError.typeError
        "Prompt.__init__() got an unexpected keyword argument evaluation_id") := by
  rfl

/-- Claim C3 (spec-modelled, spec section 4.1): `forceRotate()`
unconditionally advances the rotation index to the next session,
wrapping modulo the pool size, and resets the usage counter to zero —
independently of the prior usage count, including 0. -/
theorem C3_force_rotate_unconditional (st : SessionPoolState) :
    st.force_rotate.index = (st.index + 1) % st.size ∧
    st.force_rotate.usage = 0 ∧
    (∀ u : Nat, ({ st with usage := u } : SessionPoolState).force_rotate = st.force_rotate) :=
  ⟨rfl, rfl, fun _ => rfl⟩

/-- Claim C6, counterexample: `ChatGPTBot.evaluate` does NOT always
return a result object — called on an uninitialized bot it raises
`RuntimeError` (src/src/chatgpt/bot.py lines 118-119), refuting "never
raises an exception" as stated. -/
theorem C6_counterexample_uninitialized_evaluate_raises :
    ChatGPTBot.evaluate false "any prompt" (Except.ok ("some response", [])) =
      Except.error (PyError.runtimeError "Bot not initialized. Call initialize() first.") :=
  rfl

/-- Claim C6 as amended: once the bot is initialized, `evaluate` always
returns an `EvaluationResult` and never raises: a successful page
interaction yields the extracted text and citations with
`success=True`, and every exception from the page interaction is caught
and converted into a result with `success=False`, the error message,
and an empty citation list. -/
theorem C6_amended_initialized_evaluate_never_raises (p t : String)
    (cs : List Citation) (e : String) :
    ChatGPTBot.evaluate true p (Except.ok (t, cs)) =
      Except.ok { response_text := t, citations := cs, success := true } ∧
    ChatGPTBot.evaluate true p (Except.error e) =
      Except.ok { response_text := "", citations := [], success := false,
                  error_message := some e } ∧
    (∀ o : PageOutcome, ∃ r, ChatGPTBot.evaluate true p o = Except.ok r) := by
  refine ⟨rfl, rfl, fun o => ?_⟩
  cases o with
  | ok a => exact ⟨_, rfl⟩
  | error e => exact ⟨_, rfl⟩

/-- Claim C8, counterexample: the install/restore round-trip does NOT
hold for every prior handler state.  With the CPython startup state
(SIGINT: `default_int_handler`, SIGTERM: `SIG_DFL`), `SIG_DFL` has
integer value 0, so the truthiness guard
`if self._original_sigterm_handler:` in `restore_signal_handlers`
(src/src/shutdown_handler.py lines 63-64) skips it: after the
round-trip SIGTERM is still `_handle_signal`. -/
theorem C8_counterexample_sig_dfl_not_restored :
    restore_signal_handlers
        (install_signal_handlers
          { sigint := .defaultIntHandler, sigterm := .sigDfl }).1
        (install_signal_handlers
          { sigint := .defaultIntHandler, sigterm := .sigDfl }).2 ≠
      ({ sigint := .defaultIntHandler, sigterm := .sigDfl } : SignalTable) ∧
    (restore_signal_handlers
        (install_signal_handlers
          { sigint := .defaultIntHandler, sigterm := .sigDfl }).1
        (install_signal_handlers
          { sigint := .defaultIntHandler, sigterm := .sigDfl }).2).sigterm =
      PySignalHandler.handleSignal := by
  exact ⟨by decide, rfl⟩

/-- Claim C8 as amended: the install/restore round-trip restores both
SIGINT and SIGTERM to their prior handlers whenever both saved prior
handlers are truthy Python values (a callable or `SIG_IGN`); a falsy
prior handler (`SIG_DFL`, whose integer value is 0, or `None`) is
skipped by the restore guard. -/
theorem C8_amended_roundtrip_for_truthy_handlers (tbl : SignalTable)
    (h1 : tbl.sigint.truthy = true) (h2 : tbl.sigterm.truthy = true) :
    restore_signal_handlers (install_signal_handlers tbl).1
      (install_signal_handlers tbl).2 = tbl := by
  simp [install_signal_handlers, restore_signal_handlers, h1, h2]

/-- Witness for C8's amended theorem at a concrete truthy prior state. -/
theorem C8_amended_witness :
    PySignalHandler.truthy .sigIgn = true ∧
    PySignalHandler.truthy .defaultIntHandler = true ∧
    restore_signal_handlers
        (install_signal_handlers { sigint := .sigIgn, sigterm := .defaultIntHandler }).1
        (install_signal_handlers { sigint := .sigIgn, sigterm := .defaultIntHandler }).2 =
      { sigint := .sigIgn, sigterm := .defaultIntHandler } :=
  ⟨rfl, rfl, C8_amended_roundtrip_for_truthy_handlers
    { sigint := .sigIgn, sigterm := .defaultIntHandler } rfl rfl⟩

/-- Claim C10: after `close()`, every `poll()` raises
`ApiProviderError` and every `save()` raises `PersistenceError`, and
repeated `close()` calls are no-ops (the underlying HTTP session is
closed exactly once). -/
theorem C10_closed_components (pst : HttpProviderState) (rst : PersisterState)
    (outs : List PollOutcome) (p : PromptFull) (r : EvaluationResult) (n : Int)
    (souts : List SubmitOutcome) (rout : SubmitOutcome) :
    HttpApiPromptProvider.poll (HttpApiPromptProvider.close pst) outs =
      Except.error (PyError.apiError "Cannot poll from closed provider") ∧
    HttpApiResultPersister.save (HttpApiResultPersister.close rst) p r n souts rout =
      Except.error (PyError.persistError "Cannot save to closed persister") ∧
    HttpApiPromptProvider.close (HttpApiPromptProvider.close pst) =
      HttpApiPromptProvider.close pst ∧
    HttpApiResultPersister.close (HttpApiResultPersister.close rst) =
      HttpApiResultPersister.close rst := by
  refine ⟨?_, ?_, ?_, ?_⟩
  · by_cases h : pst.closed <;>
      simp [HttpApiPromptProvider.poll, HttpApiPromptProvider.close, h]
  · by_cases h : rst.closed <;>
      simp [HttpApiResultPersister.save, HttpApiResultPersister.close, h]
  · by_cases h : pst.closed <;> simp [HttpApiPromptProvider.close, h]
  · by_cases h : rst.closed <;> simp [HttpApiResultPersister.close, h]

/-- Claim C2, counterexample: on a fresh two-session pool with
`max_usage_per_session=1`, one `record_evaluation` on session "a"
reaches the limit (remaining 0) and advances the rotation index — but
the usage counter of the rotated-away session is 1, not 0: the claimed
reset-to-zero on rotation does not happen in
`FileSessionProvider.record_evaluation`. -/
theorem C2_counterexample_no_reset_on_rotation :
    recRemaining cxPool "a" = 0 ∧
    (recState cxPool "a").currentIndex = 1 ∧
    ((recState cxPool "a").sessions.getD 0 dfltSession).usage_count = 1 ∧
    ¬ ((recState cxPool "a").sessions.getD 0 dfltSession).usage_count = 0 := by
  decide

/-- Claim C7, counterexample: the `_extract_from_list_structure` path
(src/src/chatgpt/citation_extractor.py lines 278-308) stores the link's
`href` verbatim, so a relative URL beginning with `/` reaches storage
un-rewritten — the rewriting exists only in `_parse_links`. -/
theorem C7_counterexample_relative_url_stored_unrewritten :
    pyStartsWith "/cite-page" "/" = true ∧
    (extract_from_list_structure [relativeLink]).getD 0 dfltCitation =
      { url := "/cite-page", text := "Example site", number := some 1 } ∧
    "/cite-page" ≠ "https://chatgpt.com" ++ "/cite-page" := by
  decide

/-- Helper: updating exactly the found session (by id) makes `find?`
return the updated session. -/
theorem find?_map_update (l : List SessionInfo) (sid : String) (s s' : SessionInfo)
    (h : l.find? (fun t => t.session_id == sid) = some s)
    (hs' : s'.session_id = sid) :
    (l.map (fun t => if t.session_id == sid then s' else t)).find?
      (fun t => t.session_id == sid) = some s' := by
  induction l with
  | nil => exact absurd h (by simp)
  | cons a l ih =>
    by_cases ha : a.session_id = sid
    · have ha' : (a.session_id == sid) = true := by simp [ha]
      have hs'' : (s'.session_id == sid) = true := by simp [hs']
      rw [List.map_cons, List.find?_cons, ha']
      simp only [if_true]
      rw [hs'']
    · have ha' : (a.session_id == sid) = false := by simp [ha]
      rw [List.find?_cons, ha'] at h
      have h' : l.find? (fun t => t.session_id == sid) = some s := h
      rw [List.map_cons, ha']
      simp only [Bool.false_eq_true, if_false]
      rw [List.find?_cons, ha']
      exact ih h'

/-- Claim C2 as amended: `record_evaluation(session_id)` increments that
session's usage counter and returns `remaining = max(0, max - usage)`;
when `remaining` is 0 the pool advances the rotation index wrapping
modulo the pool size, but it does NOT reset the usage counter (the
counter is reset only when `get_session` later cycles back to the
still-valid exhausted session), and rotation is signalled by the
returned remaining count of 0, not by a `rotated` flag. -/
theorem C2_amended_record_evaluation (st : FileProviderState) (sid : String)
    (s : SessionInfo)
    (h : st.sessions.find? (fun t => t.session_id == sid) = some s) :
    (record_evaluation st sid).toOption.isSome = true ∧
    recRemaining st sid = s.max_usage - (s.usage_count + 1) ∧
    (recState st sid).sessions.find? (fun t => t.session_id == sid) =
      some { s with usage_count := s.usage_count + 1 } ∧
    (recState st sid).currentIndex =
      (if s.max_usage - (s.usage_count + 1) = 0
       then (st.currentIndex + 1) % st.sessions.length
       else st.currentIndex) := by
  have hsid : s.session_id = sid := by
    have := List.find?_some h
    simpa using this
  refine ⟨?_, ?_, ?_, ?_⟩
  · simp [record_evaluation, h, Except.toOption]
  · simp [recRemaining, record_evaluation, h, Except.toOption,
      SessionInfo.evaluations_remaining]
  · simp only [recState, record_evaluation, h, Except.toOption, Option.map_some,
      Option.getD_some]
    exact find?_map_update st.sessions sid s _ h hsid
  · simp only [recState, record_evaluation, h, Except.toOption, Option.map_some,
      Option.getD_some, SessionInfo.evaluations_remaining]
    by_cases hz : s.max_usage - (s.usage_count + 1) = 0
    · simp [hz]
    · simp [hz, Nat.beq_eq_true_eq]

/-- Witness for C2's amended theorem on a concrete two-session pool with
`max_usage_per_session=3`. -/
theorem C2_amended_witness :
    (record_evaluation wPool "a").toOption.isSome = true ∧
    recRemaining wPool "a" = 2 ∧
    (recState wPool "a").sessions.find? (fun t => t.session_id == "a") =
      some { session_id := "a", session_type := .chatgpt, file_path := "a.json",
             usage_count := 1, max_usage := 3, is_valid := true } ∧
    (recState wPool "a").currentIndex = 0 :=
  C2_amended_record_evaluation wPool "a"
    { session_id := "a", session_type := .chatgpt, file_path := "a.json",
      usage_count := 0, max_usage := 3, is_valid := true } (by decide)

/-- Helper for claim C9: the `get_session` scan loop never increases any
usage counter — each counter is either untouched or reset to zero, the
latter only for a valid, usage-exhausted session sitting at the
rotation index where the scan stopped. -/
theorem getSessionGo_usage (fuel : Nat) (st : FileProviderState) (j : Nat)
    (d : SessionInfo) :
    (((getSessionGo st fuel).2.sessions.getD j d).usage_count =
      (st.sessions.getD j d).usage_count) ∨
    (((getSessionGo st fuel).2.sessions.getD j d).usage_count = 0 ∧
     (st.sessions.getD j d).is_valid = true ∧
     (st.sessions.getD j d).needs_rotation = true ∧
     j = (getSessionGo st fuel).2.currentIndex) := by
  induction fuel generalizing st with
  | zero => left; rfl
  | succ n ih =>
    cases hget : st.sessions[st.currentIndex]? with
    | none => left; simp [getSessionGo, hget]
    | some s =>
      by_cases h1 : (s.is_valid && !s.needs_rotation) = true
      · left; simp [getSessionGo, hget, h1]
      · by_cases h2 : (s.is_valid && s.needs_rotation) = true
        · obtain ⟨hlt, -⟩ := List.getElem?_eq_some.mp hget
          have hv := (Bool.and_eq_true _ _).mp h2
          by_cases hj : j = st.currentIndex
          · right
            have hd' : st.sessions.getD j d = s := by
              subst hj; simp [List.getD_eq_getElem?_getD, hget]
            refine ⟨?_, by rw [hd']; exact hv.1, by rw [hd']; exact hv.2, ?_⟩
            · subst hj
              simp [getSessionGo, hget, h1, h2, List.getD_eq_getElem?_getD,
                List.getElem?_set_self hlt]
            · subst hj
              simp [getSessionGo, hget, h1, h2]
          · left
            simp [getSessionGo, hget, h1, h2, List.getD_eq_getElem?_getD,
              List.getElem?_set_ne (fun hh => hj hh.symm)]
        · have hih := ih { st with currentIndex := (st.currentIndex + 1) % st.sessions.length }
          simpa [getSessionGo, hget, h1, h2] using hih

/-- Claim C9: for every `FileSessionProvider` state and every session
type, `get_session` never increases any session's usage counter: every
counter is either unchanged, or — only for the valid,
exhausted (`needs_rotation`) session at the index where the rotation
stopped — reset to zero.  Quota consumption happens only in
`record_evaluation`. -/
theorem C9_get_session_never_increases_usage (st : FileProviderState)
    (session_type : SessionType) (j : Nat) (d : SessionInfo) :
    (((get_session st session_type).2.sessions.getD j d).usage_count ≤
      (st.sessions.getD j d).usage_count ∨
     ((get_session st session_type).2.sessions.getD j d).usage_count = 0) ∧
    ((((get_session st session_type).2.sessions.getD j d).usage_count =
      (st.sessions.getD j d).usage_count) ∨
     (((get_session st session_type).2.sessions.getD j d).usage_count = 0 ∧
      (st.sessions.getD j d).is_valid = true ∧
      (st.sessions.getD j d).needs_rotation = true ∧
      j = (get_session st session_type).2.currentIndex)) := by
  have hmain :
      (((get_session st session_type).2.sessions.getD j d).usage_count =
        (st.sessions.getD j d).usage_count) ∨
      (((get_session st session_type).2.sessions.getD j d).usage_count = 0 ∧
       (st.sessions.getD j d).is_valid = true ∧
       (st.sessions.getD j d).needs_rotation = true ∧
       j = (get_session st session_type).2.currentIndex) := by
    by_cases hty : (session_type != st.session_type) = true
    · left
      simp only [get_session, hty, if_true]
    · have hgo := getSessionGo_usage st.sessions.length st j d
      simpa [get_session, hty] using hgo
  refine ⟨?_, hmain⟩
  rcases hmain with h | h
  · exact Or.inl (Nat.le_of_eq h)
  · exact Or.inr h.1

/-- Helper for claim C7: URL handling of `_parse_links`, per position.
The `i`-th produced citation's URL is the `i`-th link's `href` rewritten
against the base origin when it is relative (`/`-prefixed, not
`http`-prefixed), and passed through unchanged when absolute. -/
theorem parseLinksGo_url (links : List PageLink) (idx i : Nat) (l : PageLink)
    (c : Citation) (u : String)
    (h1 : links.get? i = some l)
    (h2 : (parseLinksGo links idx).get? i = some c)
    (h3 : l.href = some u) :
    (pyStartsWith u "/" = true → pyStartsWith u "http" = false →
      c.url = "https://chatgpt.com" ++ u) ∧
    (pyStartsWith u "http" = true → c.url = u) := by
  induction links generalizing idx i with
  | nil => exact absurd h1 (by simp)
  | cons a rest ih =>
    cases i with
    | zero =>
      have ha : a = l := by simpa using h1
      subst ha
      rw [parseLinksGo] at h2
      rw [show ∀ (x : Citation) (xs : List Citation), (x :: xs).get? 0 = some x
            from fun _ _ => rfl] at h2
      injection h2 with h2
      subst h2
      constructor
      · intro hu hh
        have hne : (u != "") = true := by
          by_cases h0 : u = ""
          · subst h0; exact absurd hu (by decide)
          · simpa using h0
        simp [h3, hne, hh, hu]
      · intro hhttp
        simp [h3, hhttp]
    | succ i' =>
      have h1' : rest.get? i' = some l := by simpa using h1
      have h2' : (parseLinksGo rest (idx + 1)).get? i' = some c := by
        rw [parseLinksGo] at h2
        simpa using h2
      exact ih (idx + 1) i' h1' h2'

/-- Helper for claim C7: `_extract_from_list_structure` stores each
link's `href` verbatim as the citation URL. -/
theorem extractFromListStructureGo_url (links : List PageLink) (idx i : Nat)
    (l : PageLink) (c : Citation)
    (h1 : links.get? i = some l)
    (h2 : (extractFromListStructureGo links idx).get? i = some c) :
    c.url = l.href.getD "" := by
  induction links generalizing idx i with
  | nil => exact absurd h1 (by simp)
  | cons a rest ih =>
    cases i with
    | zero =>
      have ha : a = l := by simpa using h1
      subst ha
      rw [extractFromListStructureGo] at h2
      rw [show ∀ (x : Citation) (xs : List Citation), (x :: xs).get? 0 = some x
            from fun _ _ => rfl] at h2
      injection h2 with h2
      subst h2
      rfl
    | succ i' =>
      have h1' : rest.get? i' = some l := by simpa using h1
      have h2' : (extractFromListStructureGo rest (idx + 1)).get? i' = some c := by
        rw [extractFromListStructureGo] at h2
        simpa using h2
      exact ih (idx + 1) i' h1' h2'

/-- Claim C7 as amended: the relative-URL rewriting (a `/`-prefixed URL
becomes `https://chatgpt.com` + URL, an `http`-prefixed URL passes
through unchanged) holds for every citation produced by the generic
link-parsing path `_parse_links` — but not on every extraction path:
the `_extract_from_list_structure` path stores the `href` verbatim. -/
theorem C7_amended_url_normalization (links : List PageLink) (i : Nat)
    (l : PageLink) (c c' : Citation) (u : String)
    (h1 : links.get? i = some l)
    (h2 : (parse_links links).get? i = some c)
    (h3 : (extract_from_list_structure links).get? i = some c')
    (h4 : l.href = some u) :
    (pyStartsWith u "/" = true → pyStartsWith u "http" = false →
      c.url = "https://chatgpt.com" ++ u) ∧
    (pyStartsWith u "http" = true → c.url = u) ∧
    c'.url = u := by
  refine ⟨(parseLinksGo_url links 1 i l c u h1 h2 h4).1,
          (parseLinksGo_url links 1 i l c u h1 h2 h4).2, ?_⟩
  have := extractFromListStructureGo_url links 1 i l c' h1 h3
  simpa [h4] using this

/-- Witness for C7's amended theorem: a relative link is rewritten by
`_parse_links`, an absolute link passes through, and the same relative
link is stored verbatim by `_extract_from_list_structure`. -/
theorem C7_amended_witness :
    pyStartsWith "/cite-page" "/" = true ∧
    pyStartsWith "/cite-page" "http" = false ∧
    pyStartsWith "http://example.com/a" "http" = true ∧
    ({ url := "https://chatgpt.com/cite-page", text := "", number := some 1 } : Citation).url =
      "https://chatgpt.com" ++ "/cite-page" ∧
    ({ url := "http://example.com/a", text := "Example A", number := some 2 } : Citation).url =
      "http://example.com/a" ∧
    ({ url := "/cite-page", text := "Example site", number := some 1 } : Citation).url =
      "/cite-page" :=
  ⟨by decide, by decide, by decide,
   (C7_amended_url_normalization [relativeLink, absoluteLink] 0 relativeLink
      { url := "https://chatgpt.com/cite-page", text := "", number := some 1 }
      { url := "/cite-page", text := "Example site", number := some 1 }
      "/cite-page" (by decide) (by decide) (by decide) (by decide)).1
      (by decide) (by decide),
   (C7_amended_url_normalization [relativeLink, absoluteLink] 1 absoluteLink
      { url := "http://example.com/a", text := "Example A", number := some 2 }
      { url := "http://example.com/a", text := "Source 2", number := some 2 }
      "http://example.com/a" (by decide) (by decide) (by decide) (by decide)).2.1
      (by decide),
   (C7_amended_url_normalization [relativeLink, absoluteLink] 0 relativeLink
      { url := "https://chatgpt.com/cite-page", text := "", number := some 1 }
      { url := "/cite-page", text := "Example site", number := some 1 }
      "/cite-page" (by decide) (by decide) (by decide) (by decide)).2.2⟩

/-- Helper for claims C4/C5: with sessions always available and session
loading always succeeding, `_ensure_bot_ready` reports ready and leaves
the conversation/evaluate/record/save/force-rotate instrumentation
untouched. -/
theorem ensureBotReady_ok (env : BotEnv) (s : OrchState)
    (hA : ∀ i, env.sessionAvail i = true) (hL : ∀ i, env.loadOk i = true) :
    ∃ s1, ensureBotReady env s = (true, s1) ∧
      s1.convCalls = s.convCalls ∧ s1.evalCalls = s.evalCalls ∧
      s1.recordCalls = s.recordCalls ∧ s1.forceRotates = s.forceRotates ∧
      s1.saves = s.saves := by
  by_cases hb : s.botLive
  · exact ⟨s, by simp [ensureBotReady, hb], rfl, rfl, rfl, rfl, rfl⟩
  · use { s with getSessionCalls := s.getSessionCalls + 1, loadCalls := s.loadCalls + 1, botLive := true }
    refine ⟨?_, rfl, rfl, rfl, rfl, rfl⟩
    simp [ensureBotReady, hb, hA, hL]

/-- Helper for claims C4/C5: one loop iteration on a no-citation
evaluate result steps to the next attempt, incrementing the
conversation, evaluate and record counters by one and changing nothing
else that the retry-protocol claims observe. -/
theorem processAttempts_step_no_cit (env : BotEnv)
    (hA : ∀ i, env.sessionAvail i = true) (hL : ∀ i, env.loadOk i = true)
    (hC : ∀ i, env.convOk i = true)
    (n attempt : Nat) (s : OrchState)
    (hcit : (env.evalResults s.evalCalls).citations = []) :
    ∃ t, processAttempts env (n + 1) attempt s = processAttempts env n (attempt + 1) t ∧
      t.evalCalls = s.evalCalls + 1 ∧ t.convCalls = s.convCalls + 1 ∧
      t.recordCalls = s.recordCalls + 1 ∧ t.saves = s.saves ∧
      t.forceRotates = s.forceRotates := by
  obtain ⟨s1, hEq, hCv, hEv, hRc, hFr, hSa⟩ := ensureBotReady_ok env s hA hL
  have hhc : (env.evalResults s.evalCalls).has_citations = false := by
    simp [EvaluationResult.has_citations, hcit]
  cases hrot : env.rotatedFlags s1.recordCalls with
  | true =>
    use { s1 with convCalls := s1.convCalls + 1, evalCalls := s1.evalCalls + 1, recordCalls := s1.recordCalls + 1, botLive := false }
    refine ⟨?_, ?_, ?_, ?_, ?_, ?_⟩
    · simp only [processAttempts]
      rw [hEq]
      simp [hC, hrot, hhc, hEv]
    · simp [hEv]
    · simp [hCv]
    · simp [hRc]
    · simp [hSa]
    · simp [hFr]
  | false =>
    use { s1 with convCalls := s1.convCalls + 1, evalCalls := s1.evalCalls + 1, recordCalls := s1.recordCalls + 1 }
    refine ⟨?_, ?_, ?_, ?_, ?_, ?_⟩
    · simp only [processAttempts]
      rw [hEq]
      simp [hC, hrot, hhc, hEv]
    · simp [hEv]
    · simp [hCv]
    · simp [hRc]
    · simp [hSa]
    · simp [hFr]

/-- Helper for claim C5: a loop iteration whose evaluate call returns
citations saves the result tagged with the current attempt number and
stops. -/
theorem processAttempts_step_cit (env : BotEnv)
    (hA : ∀ i, env.sessionAvail i = true) (hL : ∀ i, env.loadOk i = true)
    (hC : ∀ i, env.convOk i = true)
    (n attempt : Nat) (s : OrchState)
    (hcit : (env.evalResults s.evalCalls).citations ≠ []) :
    ∃ t : OrchState, processAttempts env (n + 1) attempt s =
      ({ t with saves := t.saves ++ [(env.evalResults s.evalCalls, attempt)] }, true) ∧
      t.evalCalls = s.evalCalls + 1 ∧ t.convCalls = s.convCalls + 1 ∧
      t.saves = s.saves ∧ t.forceRotates = s.forceRotates := by
  obtain ⟨s1, hEq, hCv, hEv, hRc, hFr, hSa⟩ := ensureBotReady_ok env s hA hL
  have hhc : (env.evalResults s.evalCalls).has_citations = true := by
    simp [EvaluationResult.has_citations, hcit, List.length_pos]
  cases hrot : env.rotatedFlags s1.recordCalls with
  | true =>
    use { s1 with convCalls := s1.convCalls + 1, evalCalls := s1.evalCalls + 1, recordCalls := s1.recordCalls + 1, botLive := false }
    refine ⟨?_, ?_, ?_, ?_, ?_⟩
    · simp only [processAttempts]
      rw [hEq]
      simp [hC, hrot, hhc, hEv]
    · simp [hEv]
    · simp [hCv]
    · simp [hSa]
    · simp [hFr]
  | false =>
    use { s1 with convCalls := s1.convCalls + 1, evalCalls := s1.evalCalls + 1, recordCalls := s1.recordCalls + 1 }
    refine ⟨?_, ?_, ?_, ?_, ?_⟩
    · simp only [processAttempts]
      rw [hEq]
      simp [hC, hrot, hhc, hEv]
    · simp [hEv]
    · simp [hCv]
    · simp [hSa]
    · simp [hFr]

/-- Helper for claim C4: when no in-window evaluate call returns
citations, the loop performs exactly one conversation reset, one
evaluate and one usage-recording per remaining attempt, saves nothing,
and reports no success. -/
theorem processAttempts_no_citations (env : BotEnv)
    (hA : ∀ i, env.sessionAvail i = true) (hL : ∀ i, env.loadOk i = true)
    (hC : ∀ i, env.convOk i = true) :
    ∀ (n attempt : Nat) (s : OrchState),
      (∀ j, j < n → (env.evalResults (s.evalCalls + j)).citations = []) →
      ∃ s', processAttempts env n attempt s = (s', false) ∧
        s'.evalCalls = s.evalCalls + n ∧ s'.convCalls = s.convCalls + n ∧
        s'.saves = s.saves ∧ s'.forceRotates = s.forceRotates := by
  intro n
  induction n with
  | zero => exact fun attempt s _ => ⟨s, rfl, rfl, rfl, rfl, rfl⟩
  | succ n ih =>
    intro attempt s h
    obtain ⟨t, hStep, htE, htC, htR, htS, htF⟩ :=
      processAttempts_step_no_cit env hA hL hC n attempt s (h 0 (by omega))
    obtain ⟨s', hLoop, hsE, hsC, hsS, hsF⟩ := ih (attempt + 1) t (by
      intro j hj
      rw [htE]
      have := h (j + 1) (by omega)
      simpa [Nat.add_assoc, Nat.add_comm 1 j] using this)
    refine ⟨s', by rw [hStep, hLoop], ?_, ?_, ?_, ?_⟩
    · rw [hsE, htE]; omega
    · rw [hsC, htC]; omega
    · rw [hsS, htS]
    · rw [hsF, htF]

/-- Helper for claim C5: when the first citation-bearing evaluate call
is the (m+1)-th one inside the window, the loop saves exactly that
result, tagged `attempt + m`, and stops after exactly m+1 evaluate
calls. -/
theorem processAttempts_cit_at (env : BotEnv)
    (hA : ∀ i, env.sessionAvail i = true) (hL : ∀ i, env.loadOk i = true)
    (hC : ∀ i, env.convOk i = true) :
    ∀ (n m attempt : Nat) (s : OrchState), m < n →
      (∀ j, j < m → (env.evalResults (s.evalCalls + j)).citations = []) →
      (env.evalResults (s.evalCalls + m)).citations ≠ [] →
      ∃ t, processAttempts env n attempt s = (t, true) ∧
        t.evalCalls = s.evalCalls + m + 1 ∧ t.convCalls = s.convCalls + m + 1 ∧
        t.saves = s.saves ++ [(env.evalResults (s.evalCalls + m), attempt + m)] := by
  intro n
  induction n with
  | zero => intro m attempt s hm; omega
  | succ n ih =>
    intro m attempt s hm hwin hcit
    cases m with
    | zero =>
      obtain ⟨t, hStep, htE, htC, htS, htF⟩ :=
        processAttempts_step_cit env hA hL hC n attempt s (by simpa using hcit)
      refine ⟨_, hStep, ?_, ?_, ?_⟩
      · simpa using htE
      · simpa using htC
      · simp [htS]
    | succ m' =>
      obtain ⟨t, hStep, htE, htC, htR, htS, htF⟩ :=
        processAttempts_step_no_cit env hA hL hC n attempt s (by simpa using hwin 0 (by omega))
      obtain ⟨u, hLoop, huE, huC, huS⟩ := ih m' (attempt + 1) t (by omega)
        (by
          intro j hj
          rw [htE]
          have := hwin (j + 1) (by omega)
          simpa [Nat.add_assoc, Nat.add_comm 1 j] using this)
        (by
          rw [htE]
          have : s.evalCalls + 1 + m' = s.evalCalls + (m' + 1) := by omega
          rw [this]
          exact hcit)
      refine ⟨u, by rw [hStep, hLoop], ?_, ?_, ?_⟩
      · rw [huE, htE]; omega
      · rw [huC, htC]; omega
      · rw [huS, htS, htE]
        have h1 : s.evalCalls + 1 + m' = s.evalCalls + (m' + 1) := by omega
        have h2 : attempt + 1 + m' = attempt + (m' + 1) := by omega
        rw [h1, h2]

/-- Helper for claim C4: when the forced-rotation attempt also yields no
citations, the fallback performs exactly one more evaluate call, one
more `force_rotate`, and persists the empty failure result with run
number 0. -/
theorem processFallback_no_cit (env : BotEnv) (M : Nat) (s : OrchState)
    (hA : ∀ i, env.sessionAvail i = true) (hL : ∀ i, env.loadOk i = true)
    (hC : ∀ i, env.convOk i = true)
    (hcit : (env.evalResults s.evalCalls).citations = []) :
    ∃ u : OrchState, processFallback env M s =
      ({ u with saves := u.saves ++ [(failureResult M, 0)] }, false) ∧
      u.evalCalls = s.evalCalls + 1 ∧ u.convCalls = s.convCalls + 1 ∧
      u.saves = s.saves ∧ u.forceRotates = s.forceRotates + 1 := by
  obtain ⟨s1, hEq, hCv, hEv, hRc, hFr, hSa⟩ :=
    ensureBotReady_ok env { s with forceRotates := s.forceRotates + 1, botLive := false } hA hL
  have hhc : (env.evalResults s.evalCalls).has_citations = false := by
    simp [EvaluationResult.has_citations, hcit]
  cases hrot : env.rotatedFlags s1.recordCalls with
  | true =>
    use { s1 with convCalls := s1.convCalls + 1, evalCalls := s1.evalCalls + 1, recordCalls := s1.recordCalls + 1, botLive := false }
    refine ⟨?_, ?_, ?_, ?_, ?_⟩
    · simp only [processFallback]
      rw [hEq]
      simp only [hEv] at hhc ⊢
      simp [hC, hrot, hhc, finalFailure, hEv]
    · simp [hEv]
    · simp [hCv]
    · simp [hSa]
    · simp [hFr]
  | false =>
    use { s1 with convCalls := s1.convCalls + 1, evalCalls := s1.evalCalls + 1, recordCalls := s1.recordCalls + 1 }
    refine ⟨?_, ?_, ?_, ?_, ?_⟩
    · simp only [processFallback]
      rw [hEq]
      simp [hC, hrot, hhc, finalFailure, hEv]
    · simp [hEv]
    · simp [hCv]
    · simp [hSa]
    · simp [hFr]

/-- Helper for claim C5: when the forced-rotation attempt yields
citations, the fallback saves that result tagged with attempt number 1
and reports success. -/
theorem processFallback_cit (env : BotEnv) (M : Nat) (s : OrchState)
    (hA : ∀ i, env.sessionAvail i = true) (hL : ∀ i, env.loadOk i = true)
    (hC : ∀ i, env.convOk i = true)
    (hcit : (env.evalResults s.evalCalls).citations ≠ []) :
    ∃ u : OrchState, processFallback env M s =
      ({ u with saves := u.saves ++ [(env.evalResults s.evalCalls, 1)] }, true) ∧
      u.evalCalls = s.evalCalls + 1 ∧ u.convCalls = s.convCalls + 1 ∧
      u.saves = s.saves ∧ u.forceRotates = s.forceRotates + 1 := by
  obtain ⟨s1, hEq, hCv, hEv, hRc, hFr, hSa⟩ :=
    ensureBotReady_ok env { s with forceRotates := s.forceRotates + 1, botLive := false } hA hL
  have hhc : (env.evalResults s.evalCalls).has_citations = true := by
    simp [EvaluationResult.has_citations, hcit, List.length_pos]
  cases hrot : env.rotatedFlags s1.recordCalls with
  | true =>
    use { s1 with convCalls := s1.convCalls + 1, evalCalls := s1.evalCalls + 1, recordCalls := s1.recordCalls + 1, botLive := false }
    refine ⟨?_, ?_, ?_, ?_, ?_⟩
    · simp only [processFallback]
      rw [hEq]
      simp [hC, hrot, hhc, hEv]
    · simp [hEv]
    · simp [hCv]
    · simp [hSa]
    · simp [hFr]
  | false =>
    use { s1 with convCalls := s1.convCalls + 1, evalCalls := s1.evalCalls + 1, recordCalls := s1.recordCalls + 1 }
    refine ⟨?_, ?_, ?_, ?_, ?_⟩
    · simp only [processFallback]
      rw [hEq]
      simp [hC, hrot, hhc, hEv]
    · simp [hEv]
    · simp [hCv]
    · simp [hSa]
    · simp [hFr]

/-- Claim C4: with the Bot initializing successfully and every evaluate
call returning a citation-free result, the Orchestrator makes exactly
`maxAttempts` in-budget evaluate calls plus exactly one forced-rotation
evaluate call (`maxAttempts + 1` total, with exactly one `force_rotate`),
then persists exactly one result: the failed empty result tagged with
run number 0 and an explanatory error message. -/
theorem C4_exhaustion_retry_protocol (env : BotEnv) (M : Nat)
    (hA : ∀ i, env.sessionAvail i = true) (hL : ∀ i, env.loadOk i = true)
    (hC : ∀ i, env.convOk i = true)
    (hE : ∀ i, (env.evalResults i).citations = []) :
    (processAttempts env M 1 OrchState.start).1.evalCalls = M ∧
    (processPrompt env M).2 = false ∧
    (processPrompt env M).1.evalCalls = M + 1 ∧
    (processPrompt env M).1.saves = [(failureResult M, 0)] ∧
    (processPrompt env M).1.forceRotates = 1 ∧
    (failureResult M).success = false ∧
    (failureResult M).error_message.isSome = true := by
  obtain ⟨s, hP, hsE, hsC, hsS, hsF⟩ :=
    processAttempts_no_citations env hA hL hC M 1 OrchState.start (fun j _ => hE _)
  have hsE0 : s.evalCalls = M := by simpa [OrchState.start] using hsE
  have hsS0 : s.saves = [] := by simpa [OrchState.start] using hsS
  have hsF0 : s.forceRotates = 0 := by simpa [OrchState.start] using hsF
  obtain ⟨u, hFb, huE, huC, huS, huF⟩ :=
    processFallback_no_cit env M s hA hL hC (hE _)
  have hPP : processPrompt env M =
      ({ u with saves := u.saves ++ [(failureResult M, 0)] }, false) := by
    unfold processPrompt
    rw [hP]
    exact hFb
  refine ⟨?_, by rw [hPP], ?_, ?_, ?_, rfl, rfl⟩
  · rw [hP]; exact hsE0
  · rw [hPP]; simp [huE, hsE0]
  · rw [hPP]; simp [huS, hsS0]
  · rw [hPP]; simp [huF, hsF0]

/-- Witness for claim C4's theorem: a stub that never returns citations,
`maxAttempts = 2`: 2 in-budget evaluate calls, 1 forced-rotation
evaluate call (3 total), one forced rotation, and a single failed save
with run number 0. -/
theorem C4_exhaustion_witness :
    (processAttempts envNoCitations 2 1 OrchState.start).1.evalCalls = 2 ∧
    (processPrompt envNoCitations 2).2 = false ∧
    (processPrompt envNoCitations 2).1.evalCalls = 3 ∧
    (processPrompt envNoCitations 2).1.saves = [(failureResult 2, 0)] ∧
    (processPrompt envNoCitations 2).1.forceRotates = 1 ∧
    (failureResult 2).success = false ∧
    (failureResult 2).error_message.isSome = true :=
  C4_exhaustion_retry_protocol envNoCitations 2
    (fun _ => rfl) (fun _ => rfl) (fun _ => rfl) (fun _ => rfl)

/-- Claim C5: if the k-th in-budget evaluate call (1 ≤ k ≤ maxAttempts)
is the first to return citations, the Orchestrator persists exactly
that result as a success tagged with attempt number k and makes no
further Bot calls (k evaluate calls, k conversation resets in total);
if citations are obtained only on the extra forced-rotation attempt,
the result is persisted tagged as attempt 1. -/
theorem C5_success_attempt_tagging (env : BotEnv) (M k : Nat)
    (hA : ∀ i, env.sessionAvail i = true) (hL : ∀ i, env.loadOk i = true)
    (hC : ∀ i, env.convOk i = true) :
    (1 ≤ k → k ≤ M →
      (∀ i, i < k - 1 → (env.evalResults i).citations = []) →
      (env.evalResults (k - 1)).citations ≠ [] →
      (processPrompt env M).2 = true ∧
      (processPrompt env M).1.evalCalls = k ∧
      (processPrompt env M).1.convCalls = k ∧
      (processPrompt env M).1.saves = [(env.evalResults (k - 1), k)]) ∧
    ((∀ i, i < M → (env.evalResults i).citations = []) →
      (env.evalResults M).citations ≠ [] →
      (processPrompt env M).2 = true ∧
      (processPrompt env M).1.evalCalls = M + 1 ∧
      (processPrompt env M).1.saves = [(env.evalResults M, 1)]) := by
  constructor
  · intro hk1 hkM hwin hcit
    obtain ⟨t, hP, htE, htC, htS⟩ :=
      processAttempts_cit_at env hA hL hC M (k - 1) 1 OrchState.start (by omega)
        (by intro j hj; simpa [OrchState.start] using hwin j hj)
        (by simpa [OrchState.start] using hcit)
    have hPP : processPrompt env M = (t, true) := by
      unfold processPrompt
      rw [hP]
    refine ⟨by rw [hPP], ?_, ?_, ?_⟩
    · rw [hPP]
      show t.evalCalls = k
      rw [htE]
      simp [OrchState.start]
      omega
    · rw [hPP]
      show t.convCalls = k
      rw [htC]
      simp [OrchState.start]
      omega
    · rw [hPP]
      show t.saves = [(env.evalResults (k - 1), k)]
      rw [htS]
      have h2 : 1 + (k - 1) = k := by omega
      simp [OrchState.start, h2]
  · intro hwin hcit
    obtain ⟨s, hP, hsE, hsC, hsS, hsF⟩ :=
      processAttempts_no_citations env hA hL hC M 1 OrchState.start
        (fun j hj => by simpa [OrchState.start] using hwin j hj)
    have hsE0 : s.evalCalls = M := by simpa [OrchState.start] using hsE
    have hsS0 : s.saves = [] := by simpa [OrchState.start] using hsS
    obtain ⟨u, hFb, huE, huC, huS, huF⟩ :=
      processFallback_cit env M s hA hL hC (by rw [hsE0]; exact hcit)
    have hPP : processPrompt env M =
        ({ u with saves := u.saves ++ [(env.evalResults s.evalCalls, 1)] }, true) := by
      unfold processPrompt
      rw [hP]
      exact hFb
    refine ⟨by rw [hPP], ?_, ?_⟩
    · rw [hPP]; simp [huE, hsE0]
    · rw [hPP]; simp [huS, hsS0, hsE0]

/-- Witness for claim C5's theorem: citations on the first call with
`maxAttempts = 2` give one evaluate call and a success saved as attempt
1; citations only on the third (forced-rotation) call give three
evaluate calls and a success saved as attempt 1. -/
theorem C5_success_witness :
    ((processPrompt envCitFirst 2).2 = true ∧
     (processPrompt envCitFirst 2).1.evalCalls = 1 ∧
     (processPrompt envCitFirst 2).1.convCalls = 1 ∧
     (processPrompt envCitFirst 2).1.saves = [(resCit, 1)]) ∧
    ((processPrompt envCitThird 2).2 = true ∧
     (processPrompt envCitThird 2).1.evalCalls = 3 ∧
     (processPrompt envCitThird 2).1.saves = [(resCit, 1)]) :=
  ⟨(C5_success_attempt_tagging envCitFirst 2 1
      (fun _ => rfl) (fun _ => rfl) (fun _ => rfl)).1
      (by omega) (by omega) (fun i hi => absurd hi (by omega)) (by decide),
   (C5_success_attempt_tagging envCitThird 2 1
      (fun _ => rfl) (fun _ => rfl) (fun _ => rfl)).2
      (fun i hi => by
        have h01 : i = 0 ∨ i = 1 := by omega
        rcases h01 with h | h <;> subst h <;> rfl)
      (by decide)⟩
